import Mathlib

/-
  Shallow embedding of the tg_bot_gsheet_sync repository core:
  field validation and phone normalization (src/bot/telegram_bot.py),
  record lookup/creation and sheet writes (src/models/google_services.py),
  the diff-and-notify logic (src/models/notification.py),
  and the save / photo-finish / company-name handlers (src/bot/telegram_bot.py).

  Python dict values in the record dicts of this codebase are either None or
  strings, modelled by `PyVal`.  Python dicts are modelled as association
  lists with first-match lookup; theorems that need dict key uniqueness take
  a `Nodup` hypothesis on the key list.
-/

namespace TgSync

/-- Python values stored in this codebase's record dicts: None or a string. -/
inductive PyVal where
  | none
  | str (s : String)
deriving DecidableEq, Repr

/-- Python str() as applied to a record value: str(None) = "None". -/
def pyStr : PyVal → String
  | PyVal.none => "None"
  | PyVal.str s => s

/-- Association-list model of a Python dict (string keys). -/
abbrev Dict := List (String × PyVal)

/-- Dict lookup d[k] / d.get(k): value of the first entry with key k. -/
def dlookup (k : String) (d : Dict) : Option PyVal :=
  (d.find? (fun kv => kv.1 = k)).map (fun kv => kv.2)

/-- Dict assignment d[k] = v: replaces the entry in place if the key exists,
otherwise appends a new entry (Python dict update semantics). -/
def dset (k : String) (v : PyVal) (d : Dict) : Dict :=
  if d.any (fun kv => kv.1 = k) then
    d.map (fun kv => if kv.1 = k then (k, v) else kv)
  else d ++ [(k, v)]

/-- Python re's \s character class for str patterns: ASCII whitespace plus
the Unicode whitespace code points. -/
def pyIsSpace (c : Char) : Bool :=
  c.toNat ∈ [0x09, 0x0A, 0x0B, 0x0C, 0x0D, 0x1C, 0x1D, 0x1E, 0x1F, 0x20,
    0x85, 0xA0, 0x1680, 0x2000, 0x2001, 0x2002, 0x2003, 0x2004, 0x2005,
    0x2006, 0x2007, 0x2008, 0x2009, 0x200A, 0x2028, 0x2029, 0x202F, 0x205F,
    0x3000]

/-- The character class of the name regex in TelegramBot.validate_name
(src/bot/telegram_bot.py line 67): [a-zA-Zа-яА-Я\s'].  The Cyrillic ranges
а-я and А-Я are U+0430..U+044F and U+0410..U+042F. -/
def nameClassChar (c : Char) : Bool :=
  (decide ('a' ≤ c) && decide (c ≤ 'z')) ||
  (decide ('A' ≤ c) && decide (c ≤ 'Z')) ||
  (0x0430 ≤ c.toNat && c.toNat ≤ 0x044F) ||
  (0x0410 ≤ c.toNat && c.toNat ≤ 0x042F) ||
  pyIsSpace c || c = Char.ofNat 39

/-- Python's $ anchor for re.match on a str: it matches at the end of the
string or just before a single trailing newline. -/
def dollarAt (cs : List Char) : Bool :=
  decide (cs = []) || decide (cs = [Char.ofNat 0x0A])

/-- Matcher for the anchored regex ^[class]+$ under Python re.match semantics:
the class must consume one or more leading characters and the $ anchor must
hold at the stopping point. -/
def classPlusMatch (p : Char → Bool) : List Char → Bool
  | [] => false
  | c :: rest => p c && (dollarAt rest || classPlusMatch p rest)

/-- TelegramBot.validate_name (src/bot/telegram_bot.py lines 57-67):
bool(re.match(r"^[a-zA-Zа-яА-Я\s\']+$", name)). -/
def validate_name (name : String) : Bool :=
  classPlusMatch nameClassChar name.data

/-- Latin letters, as the spec's claim about validate_name uses the term. -/
def isLatinLetter (c : Char) : Bool :=
  (decide ('a' ≤ c) && decide (c ≤ 'z')) ||
  (decide ('A' ≤ c) && decide (c ≤ 'Z'))

/-- Cyrillic letters of the Russian alphabet, as the spec's claim about
validate_name uses the term: а-я, А-Я together with ё (U+0451) and Ё
(U+0401).  This is a subset of the Unicode Cyrillic letters, enough to
witness claims about the spec-level character set. -/
def isCyrillicLetter (c : Char) : Bool :=
  (0x0410 ≤ c.toNat && c.toNat ≤ 0x044F) ||
  c.toNat = 0x0401 || c.toNat = 0x0451

/-- The character set named by the spec's validate_name claim: Latin or
Cyrillic letters, whitespace, apostrophes. -/
def specNameChar (c : Char) : Bool :=
  isLatinLetter c || isCyrillicLetter c || pyIsSpace c || c = Char.ofNat 39

/-- ASCII decimal digits.  Python str.isdigit also accepts some non-ASCII
digit code points; on the phone-number texts this branch processes the two
agree, and the embedding uses the ASCII digits. -/
def pyIsDigit (c : Char) : Bool :=
  decide ('0' ≤ c) && decide (c ≤ '9')

/-- The digit-stripping step of the phone branch of
TelegramBot.handle_new_value (src/bot/telegram_bot.py line 492):
"".join(filter(str.isdigit, new_value)). -/
def digits_only (l : List Char) : List Char :=
  l.filter pyIsDigit

/-- The country calling code "506" as a character list, used by the
startswith test of the phone branch. -/
def cc506 : List Char := ['5', '0', '6']

/-- The case analysis of the phone branch of TelegramBot.handle_new_value
(src/bot/telegram_bot.py lines 493-498) applied to the stripped digits:
8 digits get "+506" prepended, 11 digits starting with "506" get "+"
prepended, anything else passes through unchanged. -/
def processed_number (dl : List Char) : List Char :=
  if dl.length = 8 then '+' :: '5' :: '0' :: '6' :: dl
  else if dl.length = 11 && cc506.isPrefixOf dl then '+' :: dl
  else dl

/-- The whole phone/WhatsApp normalization of TelegramBot.handle_new_value
(src/bot/telegram_bot.py lines 487-499). -/
def normalize_phone (s : String) : String :=
  String.mk (processed_number (digits_only s.data))

/-- The characters escaped by NotificationSender.escape_markdown_v2
(src/models/notification.py line 33).  The backtick and the braces are
written through their code points. -/
def escape_chars : List Char :=
  ['\\', '_', '*', '[', ']', '(', ')', '~', Char.ofNat 0x60, '>', '#', '+',
    '-', '=', '|', Char.ofNat 0x7B, Char.ofNat 0x7D, '.', '!']

/-- NotificationSender.escape_markdown_v2 (src/models/notification.py
lines 23-34): prepend a backslash to every character of the escape set. -/
def escape_markdown_v2 (text : String) : String :=
  String.mk ((text.data.map
    (fun c => if c ∈ escape_chars then ['\\', c] else [c])).flatten)

/-- The diff loop of NotificationSender.send_notification
(src/models/notification.py lines 60-71): for every key of payload that is
also a key of old_payload and whose values differ, record (key, old, new),
in payload key order. -/
def payload_changes (payload old_payload : Dict) :
    List (String × PyVal × PyVal) :=
  payload.filterMap (fun kv =>
    match dlookup kv.1 old_payload with
    | Option.none => Option.none
    | Option.some ov =>
        if kv.2 ≠ ov then Option.some (kv.1, ov, kv.2) else Option.none)

/-- One rendered line of the change list, "{n}. {key}: {old} -> {new}" with
n the 1-based position (src/models/notification.py line 69). -/
def renderLine (i : Nat) (c : String × PyVal × PyVal) : String :=
  toString (i + 1) ++ ". " ++ c.1 ++ ": " ++ pyStr c.2.1 ++ " -> " ++
    pyStr c.2.2

/-- The rendered change list payload_changes_str: the loop in the source
rebuilds the joined string after each recorded change, so its final value is
the newline join over all recorded changes ("" when there are none). -/
def payload_changes_str (ch : List (String × PyVal × PyVal)) : String :=
  String.intercalate "\n" (ch.enum.map (fun ic => renderLine ic.1 ic.2))

/-- Python truthiness of an optional-string attribute as used for
manager_id.first_name and manager_id.last_name: None and "" are falsy and
yield "", anything else is passed through str() unchanged
(src/models/notification.py lines 85-90). -/
def nameOrEmpty : Option String → String
  | Option.none => ""
  | Option.some s => if s = "" then "" else s

/-- The message text built per recipient by send_notification
(src/models/notification.py lines 93-103).  old_payload["name"] raises
KeyError when the key is absent, modelled by the error branch; payload
truthiness selects between the formatted text and "No new updates.". -/
def notification_text (first_name last_name : Option String)
    (payload old_payload : Dict) : Except String String :=
  match dlookup "name" old_payload with
  | Option.none => Except.error "KeyError: name"
  | Option.some nv =>
      Except.ok
        (if payload ≠ [] then
          "*From:* " ++ escape_markdown_v2 (nameOrEmpty first_name) ++ " " ++
          escape_markdown_v2 (nameOrEmpty last_name) ++
          "\n*Name:* " ++ escape_markdown_v2 (pyStr nv) ++
          "\n*Changes:*\n" ++
          escape_markdown_v2 (payload_changes_str
            (payload_changes payload old_payload))
        else "No new updates.")

/-- Outcome recorded per recipient by the fan-out loop of send_notification:
a 200 response appends the parsed response payload, any other status appends
a status-plus-error entry (src/models/notification.py lines 105-119). -/
inductive DeliveryOutcome where
  | ok (body : String)
  | failed (status : Nat) (text : String)
deriving DecidableEq, Repr

/-- The delivery channel: posting to one recipient either completes an HTTP
exchange with a status and a body, or raises a transport exception
(aiohttp ClientError); session.post is awaited inside the loop with no
try/except around it. -/
abbrev Channel := Nat → Except String (Nat × String)

/-- Result recording of one completed HTTP exchange, as the loop body does
with the response (src/models/notification.py lines 106-119). -/
def recordOutcome : Except String (Nat × String) → DeliveryOutcome
  | Except.ok (status, body) =>
      if status = 200 then DeliveryOutcome.ok body
      else DeliveryOutcome.failed status body
  | Except.error e => DeliveryOutcome.failed 0 e

/-- The fan-out loop of send_notification over id_notification_list
(src/models/notification.py lines 82-120): each recipient is posted to in
order and its outcome appended to results; a transport exception has no
handler inside the loop and propagates, abandoning the remaining
recipients and the collected results. -/
def send_loop (deliver : Channel) : List Nat → Except String (List DeliveryOutcome)
  | [] => Except.ok []
  | id :: rest =>
      match deliver id with
      | Except.error e => Except.error e
      | Except.ok sb =>
          match send_loop deliver rest with
          | Except.error e => Except.error e
          | Except.ok rs => Except.ok (recordOutcome (Except.ok sb) :: rs)

/-- The recipients to whom a delivery attempt is actually made before the
loop either finishes or is aborted by a transport exception. -/
def attempted (deliver : Channel) : List Nat → List Nat
  | [] => []
  | id :: rest =>
      match deliver id with
      | Except.error _ => [id]
      | Except.ok _ => id :: attempted deliver rest

/-- The column selection of GoogleServices.search_name_in_df
(src/models/google_services.py lines 161-172). -/
def outputCols : List String :=
  ["name", "type", "photos", "google_map", "phone_numbers", "Whatsapp",
    "hours_of_operation", "ID"]

/-- The identifier string minted for a freshly created row
(src/models/google_services.py line 156): the file's literal prefix
followed by str(len(df) + 310). -/
def mintedID (dfLen : Nat) : String :=
  "â„–" ++ toString (dfLen + 310)

/-- GoogleServices.search_name_in_df (src/models/google_services.py lines
134-174).  A DataFrame row is a dict from column name to cell value; the
first row whose name column equals the searched name is selected (the
source takes next(iter(...)) over all matches), its output columns are
extracted, and created_new is False.  With no match, a new row is built
with every column None except name, its ID column is set to the minted
identifier, and created_new is True.  Rows are assumed to carry the output
columns (pandas raises on a missing column). -/
def search_name_in_df (df : List Dict) (name : String) : Dict × Bool :=
  match df.find? (fun row => dlookup "name" row = Option.some (PyVal.str name)) with
  | Option.some row =>
      (outputCols.map (fun c => (c, (dlookup c row).getD PyVal.none)), false)
  | Option.none =>
      (outputCols.map (fun c =>
        (c, if c = "name" then PyVal.str name
            else if c = "ID" then PyVal.str (mintedID df.length)
            else PyVal.none)), true)

/-- A sheet as seen by write_on_google_sheets: the header row and the data
rows of cell strings (src/models/google_services.py lines 197-198). -/
structure Sheet where
  headers : List String
  rows : List (List String)
deriving Repr

/-- One record of sheet.get_all_records(): the header row zipped with a data
row (cell values as strings). -/
def sheetRecord (sheet : Sheet) (row : List String) : Dict :=
  sheet.headers.zip (row.map PyVal.str)

/-- The existing-row search of write_on_google_sheets
(src/models/google_services.py lines 200-207): the first data row whose ID
column, as str(), equals str(organization.get("ID")).  The source
enumerates from 2, so a found index is always truthy. -/
def existing_row_idx (sheet : Sheet) (organization : Dict) : Option Nat :=
  sheet.rows.findIdx? (fun row =>
    pyStr ((dlookup "ID" (sheetRecord sheet row)).getD PyVal.none) =
      pyStr ((dlookup "ID" organization).getD PyVal.none))

/-- The value write_on_google_sheets returns: a dict on both write paths,
and Python False from the except branch (src/models/google_services.py
lines 228, 243, 247).  The function never returns None. -/
inductive WriteRet where
  | dict (d : Dict)
  | boolFalse
deriving DecidableEq, Repr

/-- GoogleServices.write_on_google_sheets (src/models/google_services.py
lines 176-247) in the exception-free case: with an existing row matching
the organization's ID, the row is overwritten and dict(zip(headers,
current_values)) — the prior snapshot — is returned; with no match, a new
row [organization.get(header, "") for header in headers] is appended and
dict(zip(headers, row_values)) — the NEW row's values — is returned.
An API exception instead yields WriteRet.boolFalse; that environmental
case is passed to handle_save directly in the theorems. -/
def write_on_google_sheets (sheet : Sheet) (organization : Dict) : WriteRet :=
  match existing_row_idx sheet organization with
  | Option.some i =>
      WriteRet.dict (sheetRecord sheet ((sheet.rows.get? i).getD []))
  | Option.none =>
      WriteRet.dict (sheet.headers.map (fun h =>
        (h, (dlookup h organization).getD (PyVal.str ""))))

/-- The Python comparison send != None in TelegramBot.handle_save
(src/bot/telegram_bot.py line 395): write_on_google_sheets returns a dict
or False, and both compare unequal to None, so the test holds for every
value the write can return. -/
def sendNeNone : WriteRet → Bool := fun _ => true

/-- The observable effects of TelegramBot.handle_save
(src/bot/telegram_bot.py lines 367-406) as a function of the value the
write returned.  notificationInvoked records whether send_notification is
called; userDataCleared whether context.user_data.clear() runs;
errorShown whether any error text is sent to the acting user (the handler
has no such send — the except branch only logs); menuShown whether
self.start is re-entered. -/
structure SaveOut where
  notificationInvoked : Bool
  userDataCleared : Bool
  errorShown : Bool
  menuShown : Bool
deriving DecidableEq, Repr

/-- TelegramBot.handle_save's branching on the write result: the branch is
taken whenever send != None, and on it the notifier is invoked (exceptions
from it are caught and logged), the session is cleared and the menu shown;
the else branch only logs. -/
def handle_save (send : WriteRet) : SaveOut :=
  if sendNeNone send then
    { notificationInvoked := true, userDataCleared := true,
      errorShown := false, menuShown := true }
  else
    { notificationInvoked := false, userDataCleared := false,
      errorShown := false, menuShown := false }

/-- The diff phase of send_notification as invoked by handle_save with
old_payload being the raw value of send: iterating `if key in old_payload`
over a Python bool raises TypeError (argument of type bool is not
iterable) as soon as payload has a first key; an empty payload skips the
loop (src/models/notification.py lines 60-61, src/bot/telegram_bot.py
lines 395-399). -/
def send_notification_diff (payload : Dict) (old : WriteRet) :
    Except String (List (String × PyVal × PyVal)) :=
  match old with
  | WriteRet.dict d => Except.ok (payload_changes payload d)
  | WriteRet.boolFalse =>
      if payload = [] then Except.ok []
      else Except.error "TypeError: argument of type bool is not iterable"

/-- The outcome of TelegramBot.handle_company_name
(src/bot/telegram_bot.py lines 234-274): either the name failed
validate_name and the user is re-prompted with no lookup performed, or the
card and created flag are obtained from search_name_in_df and stored into
user_data via setdefault. -/
inductive NameOutcome where
  | invalid
  | shown (stored : Option Dict) (created : Bool)
deriving DecidableEq, Repr

/-- TelegramBot.handle_company_name (src/bot/telegram_bot.py lines
234-274): validate_name gates the lookup; the lookup result is written into
user_data with setdefault("current_card", ...), which keeps an already
present card and inserts the new one only when the slot is empty. -/
def handle_company_name (stored_card : Option Dict) (df : List Dict)
    (text : String) : NameOutcome :=
  if validate_name text then
    let res := search_name_in_df df text
    NameOutcome.shown (Option.some (stored_card.getD res.1)) res.2
  else NameOutcome.invalid

/-- The per-conversation session state used by the photo conversation:
the working card and the accumulated photo source locations
(context.user_data in src/bot/telegram_bot.py). -/
structure PhotoSession where
  current_card : Dict
  photos_received : List String
deriving DecidableEq, Repr

/-- The observable effects of TelegramBot.finish_photo
(src/bot/telegram_bot.py lines 615-657): the session state afterwards,
whether an error was reported, whether the success text was sent, and
whether the card and edit bar were re-shown before the conversation ended
(both branches re-show them and return ConversationHandler.END). -/
structure FinishOut where
  card : Dict
  photos_received : List String
  errorReported : Bool
  uploadReported : Bool
  cardReShown : Bool
deriving DecidableEq, Repr

/-- TelegramBot.finish_photo (src/bot/telegram_bot.py lines 615-657): the
try block reads current_card["name"] (KeyError is caught by the except),
calls GoogleDrive.upload_photo — modelled as the upload collaborator, which
either raises or returns the folder link — then clears photos_received and
sets the card's photos field to the link.  The except branch reports the
error and leaves the session untouched; both branches re-show the card and
end the conversation. -/
def finish_photo (st : PhotoSession)
    (upload : PyVal → List String → Except String String) : FinishOut :=
  match dlookup "name" st.current_card with
  | Option.none =>
      { card := st.current_card, photos_received := st.photos_received,
        errorReported := true, uploadReported := false, cardReShown := true }
  | Option.some nameVal =>
      match upload nameVal st.photos_received with
      | Except.error _ =>
          { card := st.current_card, photos_received := st.photos_received,
            errorReported := true, uploadReported := false,
            cardReShown := true }
      | Except.ok folder_link =>
          { card := dset "photos" (PyVal.str folder_link) st.current_card,
            photos_received := [],
            errorReported := false, uploadReported := true,
            cardReShown := true }

/-- Fixture: a save payload whose hours_of_operation was edited to 10. -/
def payloadHours : Dict :=
  [("name", PyVal.str "Cafe"), ("hours_of_operation", PyVal.str "10")]

/-- Fixture: the prior snapshot of the same record, hours still 9. -/
def oldHours : Dict :=
  [("name", PyVal.str "Cafe"), ("hours_of_operation", PyVal.str "9")]

/-- Fixture: the full notification text composed for the hours-only edit by
manager Ann: the template stars and newlines are literal, the interpolated
change line has its MarkdownV2 characters backslash-escaped. -/
def msgHours : String :=
  "*From:* Ann \n*Name:* Cafe\n*Changes:*\n1\\. hours\\_of\\_operation: 9 \\-\\> 10"

/-- Fixture: a channel whose recipient 1 raises a transport exception and
every other recipient answers 200. -/
def chanDrop : Channel := fun id =>
  if id = 1 then Except.error "connection error" else Except.ok (200, "ok")

/-- Fixture: a channel whose recipient 7 answers 404 and every other
recipient answers 200; no recipient raises. -/
def chanHTTP : Channel := fun id =>
  if id = 7 then Except.ok (404, "Not Found") else Except.ok (200, "ok")

/-- Fixture: a sheet with the canonical header row and no data rows, so any
saved organization is a fresh insertion. -/
def sheetEmpty : Sheet :=
  { headers := ["name", "type", "photos", "google_map", "phone_numbers",
      "Whatsapp", "hours_of_operation", "ID"],
    rows := [] }

/-- Fixture: an organization dict as produced by a created card. -/
def orgCafe : Dict :=
  [("name", PyVal.str "Cafe"), ("type", PyVal.str "Services"),
    ("photos", PyVal.none), ("google_map", PyVal.none),
    ("phone_numbers", PyVal.none), ("Whatsapp", PyVal.none),
    ("hours_of_operation", PyVal.str "9"), ("ID", PyVal.str "â„–310")]

/-- Fixture: a DataFrame holding one sheet row whose ID cell is the empty
string. -/
def dfAcme : List Dict :=
  [[("name", PyVal.str "Acme"), ("type", PyVal.str ""),
    ("photos", PyVal.str ""), ("google_map", PyVal.str ""),
    ("phone_numbers", PyVal.str ""), ("Whatsapp", PyVal.str ""),
    ("hours_of_operation", PyVal.str ""), ("ID", PyVal.str "")]]

/-- Fixture: a card already stored in a conversation's user_data. -/
def cardOld : Dict := [("name", PyVal.str "Old"), ("ID", PyVal.str "â„–311")]

/-- Fixture: a photo-collection session on a card named Cafe with one
pending photo location. -/
def stCafe : PhotoSession :=
  { current_card := [("name", PyVal.str "Cafe"), ("photos", PyVal.str "old")],
    photos_received := ["https://api.telegram.org/file/p1"] }

/-- Fixture: an upload collaborator that returns a shareable folder link. -/
def uploadOkF : PyVal → List String → Except String String :=
  fun _ _ => Except.ok "https://drive.google.com/drive/folders/f1?usp=drive_link"

/-- Fixture: an upload collaborator that raises. -/
def uploadBoomF : PyVal → List String → Except String String :=
  fun _ _ => Except.error "HttpError"

/-! ## Helper lemmas -/

/-- The anchored class-plus regex under Python re.match semantics accepts
exactly the nonempty strings all of whose characters are in the class,
provided the class contains the newline (as \s does): the $ anchor's
trailing-newline allowance is then absorbed by the class. -/
theorem classPlusMatch_iff (p : Char → Bool) (hnl : p (Char.ofNat 0x0A) = true)
    (cs : List Char) :
    classPlusMatch p cs = true ↔ cs ≠ [] ∧ cs.all p = true := by
  induction cs with
  | nil => simp [classPlusMatch]
  | cons c rest ih =>
    by_cases hr : rest = []
    · subst hr
      simp [classPlusMatch, dollarAt]
    · by_cases hn : rest = [Char.ofNat 0x0A]
      · subst hn
        simp [classPlusMatch, dollarAt, hnl]
      · have hd : dollarAt rest = false := by
          simp [dollarAt, hr, hn]
        simp only [classPlusMatch, hd, Bool.false_or, Bool.and_eq_true, ih,
          List.all_cons, ne_eq, hr, not_false_iff, true_and]
        tauto

/-- Filtering the digit characters twice is the same as filtering once. -/
theorem digits_only_idem (l : List Char) :
    digits_only (digits_only l) = digits_only l := by
  simp [digits_only, List.filter_filter]

/-! ## C3: validate_name and its character set -/

/-- C3 counterexample: the Cyrillic letter ё (U+0451) is in the claim's
character set (a Cyrillic letter) and the string "ё" is nonempty, yet
validate_name rejects it — the regex ranges а-я and А-Я omit ё and Ё, so
the claim is false as stated. -/
theorem C3_counterexample_yo :
    (∀ c ∈ "ё".data, specNameChar c = true) ∧ "ё" ≠ "" ∧
      validate_name "ё" = false := by
  decide

/-- C3 amended: validate_name accepts exactly the nonempty strings whose
characters are Latin letters a-z or A-Z, Cyrillic letters in the ranges
а-я (U+0430..U+044F) or А-Я (U+0410..U+042F) — so not ё or Ё — whitespace,
or apostrophes; any string with a character outside that set, and the empty
string, is rejected. -/
theorem C3_validate_name_exact (s : String) :
    validate_name s = true ↔
      s.data ≠ [] ∧ ∀ c ∈ s.data, nameClassChar c = true := by
  have h := classPlusMatch_iff nameClassChar (by decide) s.data
  simpa [validate_name, List.all_eq_true] using h

/-- C3 witness: the amended characterization applied at a concrete name. -/
theorem C3_witness : validate_name "Cafe Luna" = true :=
  (C3_validate_name_exact "Cafe Luna").mpr ⟨by decide, by decide⟩

/-! ## C4 and C5: phone normalization -/

/-- C4: the phone branch strips all non-digit characters; exactly 8
remaining digits get the fixed country code "+506" prepended, exactly 11
remaining digits beginning with "506" get "+" prepended, and any other
digit count passes through unchanged with no error path; in particular
"88887777" normalizes to "+50688887777". -/
theorem C4_phone_normalization (s : String) :
    ((digits_only s.data).length = 8 →
      normalize_phone s = "+506" ++ String.mk (digits_only s.data)) ∧
    ((digits_only s.data).length = 11 →
      cc506.isPrefixOf (digits_only s.data) = true →
      normalize_phone s = "+" ++ String.mk (digits_only s.data)) ∧
    ((digits_only s.data).length ≠ 8 →
      ((digits_only s.data).length = 11 →
        cc506.isPrefixOf (digits_only s.data) = false) →
      normalize_phone s = String.mk (digits_only s.data)) ∧
    normalize_phone "88887777" = "+50688887777" := by
  refine ⟨?_, ?_, ?_, by decide⟩
  · intro h8
    simp only [normalize_phone, processed_number, h8, if_true]
    rfl
  · intro h11 hp
    simp only [normalize_phone, processed_number, h11, hp]
    norm_num
    rfl
  · intro hne hnp
    by_cases h11 : (digits_only s.data).length = 11
    · simp only [normalize_phone, processed_number, hne, h11, hnp h11]
      norm_num
    · simp only [normalize_phone, processed_number, hne, h11]
      norm_num

/-- C4 witness at the concrete input "88887777". -/
theorem C4_witness :
    (digits_only "88887777".data).length = 8 ∧
    normalize_phone "88887777" = "+506" ++ String.mk (digits_only "88887777".data) :=
  ⟨by decide, (C4_phone_normalization "88887777").1 (by decide)⟩

/-- Stability of the digit-case analysis: applying strip-then-branch to an
already processed all-digit list of length 8 or correctly prefixed length 11
reproduces the processed list. -/
theorem processed_number_stable (d : List Char) (hd : digits_only d = d)
    (h : d.length = 8 ∨ (d.length = 11 ∧ cc506.isPrefixOf d = true)) :
    processed_number (digits_only (processed_number d)) = processed_number d := by
  rcases h with h8 | ⟨h11, hp⟩
  · have hstep : processed_number d = '+' :: '5' :: '0' :: '6' :: d := by
      rw [processed_number, if_pos h8]
    have hdig : digits_only ('+' :: '5' :: '0' :: '6' :: d)
        = '5' :: '0' :: '6' :: digits_only d := rfl
    have hpre : cc506.isPrefixOf ('5' :: '0' :: '6' :: d) = true := by
      simp [cc506, List.isPrefixOf]
    rw [hstep, hdig, hd, processed_number,
      if_neg (by simp [h8]), if_pos (by simp [h8, hpre])]
  · have hstep : processed_number d = '+' :: d := by
      rw [processed_number, if_neg (by simp [h11]), if_pos (by simp [h11, hp])]
    have hdig : digits_only ('+' :: d) = digits_only d := rfl
    rw [hstep, hdig, hd, processed_number,
      if_neg (by simp [h11]), if_pos (by simp [h11, hp])]

/-- C5: on inputs whose digit content is exactly 8 digits, or exactly 11
digits beginning with the country calling code, normalization stabilizes
after one pass. -/
theorem C5_normalize_idempotent (s : String)
    (h : (digits_only s.data).length = 8 ∨
      ((digits_only s.data).length = 11 ∧
        cc506.isPrefixOf (digits_only s.data) = true)) :
    normalize_phone (normalize_phone s) = normalize_phone s := by
  have hd : digits_only (digits_only s.data) = digits_only s.data :=
    digits_only_idem _
  have hst := processed_number_stable (digits_only s.data) hd h
  calc normalize_phone (normalize_phone s)
      = String.mk (processed_number (digits_only
          (processed_number (digits_only s.data)))) := rfl
    _ = String.mk (processed_number (digits_only s.data)) := by rw [hst]
    _ = normalize_phone s := rfl

/-- C5 witness at the concrete input "88887777". -/
theorem C5_witness :
    (digits_only "88887777".data).length = 8 ∧
    normalize_phone (normalize_phone "88887777") = normalize_phone "88887777" :=
  ⟨by decide, C5_normalize_idempotent "88887777" (Or.inl (by decide))⟩

/-- Lookup in a dict built by pairing each key of a list with a value
computed from it: the first hit carries the value computed from the
searched key. -/
theorem dlookup_map_keys (ks : List String) (f : String → PyVal) (k : String) :
    dlookup k (ks.map (fun h => (h, f h))) =
      if k ∈ ks then Option.some (f k) else Option.none := by
  induction ks with
  | nil => simp [dlookup]
  | cons h t ih =>
    by_cases hk : h = k
    · subst hk
      simp [dlookup, List.find?_cons]
    · have hk2 : ¬(k = h) := fun hc => hk hc.symm
      have step : dlookup k ((h :: t).map (fun x => (x, f x))) =
          dlookup k (t.map (fun x => (x, f x))) := by
        simp [dlookup, List.find?_cons, hk]
      rw [step, ih]
      simp [List.mem_cons, hk2]

/-- In a dict with pairwise distinct keys, membership of a pair determines
the lookup result. -/
theorem dlookup_of_mem_nodup (d : Dict) (hn : (d.map Prod.fst).Nodup)
    (k : String) (v : PyVal) (hm : (k, v) ∈ d) :
    dlookup k d = Option.some v := by
  induction d with
  | nil => cases hm
  | cons a t ih =>
    obtain ⟨a1, a2⟩ := a
    rw [List.map_cons, List.nodup_cons] at hn
    rcases List.mem_cons.mp hm with heq | hmt
    · injection heq with h1 h2
      subst h1
      subst h2
      simp [dlookup, List.find?_cons]
    · have hne : ¬(a1 = k) := by
        intro hcon
        subst hcon
        exact hn.1 (List.mem_map.mpr ⟨(a1, v), hmt, rfl⟩)
      have := ih hn.2 hmt
      simpa [dlookup, List.find?_cons, hne] using this

/-! ## C6: the change set and its rendering -/

/-- C6: the change set contains exactly the fields present in both payloads
whose values differ, each rendered as "{n}. {field}: {old} -> {new}"; in the
scenario where only hours_of_operation differs, the composed notification
message carries exactly one numbered change line, for that field: the
message has exactly three newlines (two in the header, one opening the
Changes block) and the rendered change segment itself has none. -/
theorem C6_change_set (payload old_payload : Dict) (k : String) (o n : PyVal) :
    ((k, o, n) ∈ payload_changes payload old_payload ↔
      (k, n) ∈ payload ∧ dlookup k old_payload = Option.some o ∧ n ≠ o) ∧
    (payload_changes payload old_payload = [(k, o, n)] →
      payload_changes_str (payload_changes payload old_payload) =
        "1. " ++ k ++ ": " ++ pyStr o ++ " -> " ++ pyStr n) ∧
    (payload_changes payloadHours oldHours =
        [("hours_of_operation", PyVal.str "9", PyVal.str "10")] ∧
      notification_text (Option.some "Ann") Option.none payloadHours oldHours =
        Except.ok msgHours ∧
      msgHours.data.count (Char.ofNat 0x0A) = 3 ∧
      (escape_markdown_v2 (payload_changes_str
        (payload_changes payloadHours oldHours))).data.count (Char.ofNat 0x0A)
        = 0) := by
  refine ⟨⟨?_, ?_⟩, ?_, rfl, rfl, by decide, by decide⟩
  · intro hmem
    rw [payload_changes, List.mem_filterMap] at hmem
    obtain ⟨⟨k1, v1⟩, hkv, hf⟩ := hmem
    simp only at hf
    rcases hlk : dlookup k1 old_payload with _ | ov
    · rw [hlk] at hf
      dsimp only at hf
      exact absurd hf (by simp)
    · rw [hlk] at hf
      dsimp only at hf
      by_cases hne : v1 ≠ ov
      · rw [if_pos hne] at hf
        injection hf with hf
        injection hf with h1 h2
        injection h2 with h2 h3
        subst h1
        subst h2
        subst h3
        exact ⟨hkv, hlk, hne⟩
      · rw [if_neg hne] at hf
        exact absurd hf (by simp)
  · rintro ⟨hmem, hlk, hne⟩
    rw [payload_changes, List.mem_filterMap]
    refine ⟨(k, n), hmem, ?_⟩
    simp [hlk, hne]
  · intro h
    rw [h]
    show renderLine 0 (k, o, n) = "1. " ++ k ++ ": " ++ pyStr o ++ " -> " ++ pyStr n
    rw [renderLine]
    rw [show toString (0 + 1) ++ ". " = ("1. " : String) from rfl]

/-- C6 witness at the hours-of-operation scenario. -/
theorem C6_witness :
    payload_changes payloadHours oldHours =
      [("hours_of_operation", PyVal.str "9", PyVal.str "10")] ∧
    payload_changes_str (payload_changes payloadHours oldHours) =
      "1. " ++ "hours_of_operation" ++ ": " ++ pyStr (PyVal.str "9") ++
        " -> " ++ pyStr (PyVal.str "10") :=
  ⟨rfl, (C6_change_set payloadHours oldHours "hours_of_operation"
    (PyVal.str "9") (PyVal.str "10")).2.1 rfl⟩

/-! ## C7: the notification fan-out -/

/-- C7 counterexample: with a channel whose first recipient's HTTP call
raises a transport exception, the fan-out loop aborts — the exception
propagates past the fan-out boundary (the loop returns it instead of a
result list) and the second recipient receives no delivery attempt. -/
theorem C7_counterexample :
    send_loop chanDrop [1, 2] = Except.error "connection error" ∧
      attempted chanDrop [1, 2] = [1] :=
  ⟨rfl, rfl⟩

/-- C7 amended: for every recipient whose HTTP exchange completes (the
channel does not raise), outcomes are isolated and aggregated — a non-200
status is recorded as status plus error text without preventing delivery to
the remaining recipients, every recipient is attempted, and the result list
collects each recipient's outcome in recipient order. -/
theorem C7_fanout_isolated (deliver : Channel) (rs : List Nat)
    (h : ∀ r ∈ rs, (deliver r).isOk = true) :
    send_loop deliver rs =
        Except.ok (rs.map (fun r => recordOutcome (deliver r))) ∧
      attempted deliver rs = rs := by
  induction rs with
  | nil => exact ⟨rfl, rfl⟩
  | cons a t ih =>
    have ha : (deliver a).isOk = true := h a (List.mem_cons_self a t)
    obtain ⟨sb, hsb⟩ : ∃ sb, deliver a = Except.ok sb := by
      cases hda : deliver a with
      | error e => rw [hda] at ha; simp [Except.isOk, Except.toBool] at ha
      | ok sb => exact ⟨sb, rfl⟩
    have iht := ih (fun r hr => h r (List.mem_cons_of_mem a hr))
    constructor
    · simp [send_loop, hsb, iht.1]
    · simp [attempted, hsb, iht.2]

/-- C7 witness: a channel with a 404 for recipient 7 and a 200 for
recipient 8 completes both attempts and aggregates both outcomes in order. -/
theorem C7_witness :
    (∀ r ∈ [7, 8], (chanHTTP r).isOk = true) ∧
    (send_loop chanHTTP [7, 8] =
        Except.ok ([7, 8].map (fun r => recordOutcome (chanHTTP r))) ∧
      attempted chanHTTP [7, 8] = [7, 8]) :=
  ⟨by decide, C7_fanout_isolated chanHTTP [7, 8] (by decide)⟩

/-! ## C8: finishing the photo collection -/

/-- C8: when the blob upload raises, the session's card (including its
photos field) and pending photo list are left untouched, the error is
reported to the user, and the card and edit bar are still re-shown before
the conversation ends (the failure is non-fatal); when the upload succeeds,
the photos field is set to the returned shareable link and the pending list
is cleared. -/
theorem C8_finish_photo (st : PhotoSession)
    (upload : PyVal → List String → Except String String) (nv : PyVal)
    (hname : dlookup "name" st.current_card = Option.some nv) :
    (∀ e, upload nv st.photos_received = Except.error e →
      finish_photo st upload =
        { card := st.current_card, photos_received := st.photos_received,
          errorReported := true, uploadReported := false,
          cardReShown := true }) ∧
    (∀ link, upload nv st.photos_received = Except.ok link →
      finish_photo st upload =
        { card := dset "photos" (PyVal.str link) st.current_card,
          photos_received := [], errorReported := false,
          uploadReported := true, cardReShown := true }) := by
  constructor
  · intro e he
    rw [finish_photo, hname]
    dsimp only
    rw [he]
  · intro link hl
    rw [finish_photo, hname]
    dsimp only
    rw [hl]

/-- C8 witness: a concrete session under a raising upload and under a
succeeding upload. -/
theorem C8_witness :
    finish_photo stCafe uploadBoomF =
      { card := stCafe.current_card, photos_received := stCafe.photos_received,
        errorReported := true, uploadReported := false, cardReShown := true } ∧
    finish_photo stCafe uploadOkF =
      { card := dset "photos"
          (PyVal.str "https://drive.google.com/drive/folders/f1?usp=drive_link")
          stCafe.current_card,
        photos_received := [], errorReported := false, uploadReported := true,
        cardReShown := true } :=
  ⟨(C8_finish_photo stCafe uploadBoomF (PyVal.str "Cafe") rfl).1 "HttpError" rfl,
    (C8_finish_photo stCafe uploadOkF (PyVal.str "Cafe") rfl).2
      "https://drive.google.com/drive/folders/f1?usp=drive_link" rfl⟩

/-! ## C1: saving a newly inserted record -/

/-- C1 counterexample: saving a record that the sheet does not yet contain
(no data row matches its ID) makes write_on_google_sheets take the
insertion branch and return the new row's values as a dict, and handle_save
— whose guard send != None holds for every value the write can return —
invokes the Change Notifier, so delivery is attempted to the distribution
list rather than skipped. -/
theorem C1_counterexample :
    existing_row_idx sheetEmpty orgCafe = Option.none ∧
    (handle_save (write_on_google_sheets sheetEmpty orgCafe)).notificationInvoked
      = true :=
  ⟨rfl, rfl⟩

/-- C1 amended: on a newly inserted record the notifier IS invoked (the
write returns the new row's values, which compare unequal to None), but the
change set it computes is empty — the returned row echoes the saved
organization — so the notification carries no change lines; the skip the
claim describes does not exist in the code. -/
theorem C1_inserted_write_notifies (sheet : Sheet) (org : Dict)
    (hins : existing_row_idx sheet org = Option.none)
    (hnd : (org.map Prod.fst).Nodup) :
    (handle_save (write_on_google_sheets sheet org)).notificationInvoked
        = true ∧
    ∀ d, write_on_google_sheets sheet org = WriteRet.dict d →
      payload_changes org d = [] := by
  constructor
  · rfl
  · intro d hd
    rw [write_on_google_sheets, hins] at hd
    dsimp only at hd
    injection hd with hd
    subst hd
    rw [payload_changes, List.filterMap_eq_nil_iff]
    rintro ⟨k1, v1⟩ hkv
    have hv : dlookup k1 org = Option.some v1 :=
      dlookup_of_mem_nodup org hnd k1 v1 hkv
    have hl := dlookup_map_keys sheet.headers
      (fun h => (dlookup h org).getD (PyVal.str "")) k1
    by_cases hmem : k1 ∈ sheet.headers
    · rw [if_pos hmem] at hl
      simp [hl, hv]
    · rw [if_neg hmem] at hl
      simp [hl]

/-- C1 witness at the concrete empty sheet and created organization. -/
theorem C1_witness :
    existing_row_idx sheetEmpty orgCafe = Option.none ∧
    (orgCafe.map Prod.fst).Nodup ∧
    ((handle_save (write_on_google_sheets sheetEmpty orgCafe)).notificationInvoked
        = true ∧
      ∀ d, write_on_google_sheets sheetEmpty orgCafe = WriteRet.dict d →
        payload_changes orgCafe d = []) :=
  ⟨rfl, by decide, C1_inserted_write_notifies sheetEmpty orgCafe rfl (by decide)⟩

/-! ## C2: saving when the store write fails -/

/-- C2 counterexample: when the write fails it returns Python False, and
False != None, so handle_save takes the same branch as on success: the
notifier is invoked, the session IS cleared (not preserved), the menu is
re-shown, and no error text is sent to the acting user — contradicting the
claimed abort-preserve-surface behavior. -/
theorem C2_counterexample :
    handle_save WriteRet.boolFalse =
      { notificationInvoked := true, userDataCleared := true,
        errorShown := false, menuShown := true } := rfl

/-- C2 amended: on a failed write handle_save proceeds as on success —
the session is cleared, the menu re-shown, no error surfaced to the user —
and the attempted notification's diff phase raises a TypeError on the
boolean old payload as soon as the saved card has any field (the exception
is caught and only logged by handle_save). -/
theorem C2_failed_write_behavior :
    (handle_save WriteRet.boolFalse).userDataCleared = true ∧
    (handle_save WriteRet.boolFalse).errorShown = false ∧
    (handle_save WriteRet.boolFalse).notificationInvoked = true ∧
    (handle_save WriteRet.boolFalse).menuShown = true ∧
    ∀ p : Dict, p ≠ [] →
      send_notification_diff p WriteRet.boolFalse =
        Except.error "TypeError: argument of type bool is not iterable" := by
  refine ⟨rfl, rfl, rfl, rfl, ?_⟩
  intro p hp
  rw [send_notification_diff, if_neg hp]

/-- C2 witness at a concrete nonempty saved card. -/
theorem C2_witness :
    orgCafe ≠ [] ∧
    send_notification_diff orgCafe WriteRet.boolFalse =
      Except.error "TypeError: argument of type bool is not iterable" :=
  ⟨by decide, C2_failed_write_behavior.2.2.2.2 orgCafe (by decide)⟩

/-! ## C9: identifiers of looked-up and created records -/

/-- Minted identifiers are never the empty string. -/
theorem mintedID_ne_empty (n : Nat) : mintedID n ≠ "" := by
  intro h
  have hl := congrArg String.length h
  rw [mintedID, String.length_append] at hl
  rw [show ("â„–" : String).length = 3 from by decide] at hl
  rw [show ("" : String).length = 0 from rfl] at hl
  omega

/-- C9 counterexample: looking up a validated name that matches a sheet row
whose ID cell is empty returns a record whose identifier is blank — the
lookup passes through whatever identifier the store row holds, so the
non-blank invariant fails for loaded records. -/
theorem C9_counterexample :
    validate_name "Acme" = true ∧
    (search_name_in_df dfAcme "Acme").2 = false ∧
    dlookup "ID" (search_name_in_df dfAcme "Acme").1 =
      Option.some (PyVal.str "") :=
  ⟨by decide, rfl, rfl⟩

/-- C9 amended: a freshly created record always carries the non-blank
minted identifier; a record loaded by name match carries exactly the ID
its sheet row holds (blank if the row's is blank); and the company-name
handler performs the lookup-or-create only for names that passed
validate_name. -/
theorem C9_lookup_or_create (df : List Dict) (name text : String)
    (stored : Option Dict) :
    ((search_name_in_df df name).2 = true →
      dlookup "ID" (search_name_in_df df name).1 =
          Option.some (PyVal.str (mintedID df.length)) ∧
        mintedID df.length ≠ "") ∧
    (∀ row,
      df.find? (fun r => dlookup "name" r = Option.some (PyVal.str name)) =
        Option.some row →
      dlookup "ID" (search_name_in_df df name).1 =
        Option.some ((dlookup "ID" row).getD PyVal.none)) ∧
    (∀ out created,
      handle_company_name stored df text = NameOutcome.shown out created →
      validate_name text = true) := by
  refine ⟨?_, ?_, ?_⟩
  · intro h
    cases hfind : df.find?
        (fun r => dlookup "name" r = Option.some (PyVal.str name)) with
    | some row =>
        rw [search_name_in_df, hfind] at h
        exact absurd h (by simp)
    | none =>
        have hsearch : search_name_in_df df name =
            (outputCols.map (fun c =>
              (c, if c = "name" then PyVal.str name
                  else if c = "ID" then PyVal.str (mintedID df.length)
                  else PyVal.none)), true) := by
          rw [search_name_in_df, hfind]
        rw [hsearch]
        exact ⟨rfl, mintedID_ne_empty df.length⟩
  · intro row hrow
    rw [search_name_in_df, hrow]
    dsimp only
    rw [dlookup_map_keys outputCols (fun c => (dlookup c row).getD PyVal.none)
      "ID", if_pos (by decide)]
  · intro out created hshown
    by_cases hv : validate_name text = true
    · exact hv
    · rw [handle_company_name, if_neg hv] at hshown
      cases hshown

/-- C9 witness: creating a record under a validated name in an empty store
yields the non-blank minted identifier. -/
theorem C9_witness :
    (search_name_in_df ([] : List Dict) "Cafe").2 = true ∧
    (dlookup "ID" (search_name_in_df ([] : List Dict) "Cafe").1 =
        Option.some (PyVal.str (mintedID 0)) ∧
      mintedID 0 ≠ "") :=
  ⟨rfl, (C9_lookup_or_create [] "Cafe" "Cafe" Option.none).1 rfl⟩

/-! ## C10: a second company-name input keeps the stored card -/

/-- C10: when the conversation already holds a current card, handling a
further company-name input leaves it unchanged — setdefault only inserts
when the slot is empty, so the record looked up or created for the new name
is discarded; an invalid name changes nothing either. -/
theorem C10_setdefault_keeps_card (c : Dict) (df : List Dict) (text : String) :
    (validate_name text = true →
      handle_company_name (Option.some c) df text =
        NameOutcome.shown (Option.some c) (search_name_in_df df text).2) ∧
    (validate_name text = false →
      handle_company_name (Option.some c) df text = NameOutcome.invalid) := by
  constructor
  · intro hv
    rw [handle_company_name, if_pos hv]
    rfl
  · intro hv
    rw [handle_company_name, if_neg (by simp [hv])]

/-- C10 witness: a conversation already holding cardOld processes the new
name "Beta" — which creates a record in the store view — yet keeps cardOld
as its stored card. -/
theorem C10_witness :
    validate_name "Beta" = true ∧
    handle_company_name (Option.some cardOld) dfAcme "Beta" =
      NameOutcome.shown (Option.some cardOld) (search_name_in_df dfAcme "Beta").2 :=
  ⟨by decide, (C10_setdefault_keeps_card cardOld dfAcme "Beta").1 (by decide)⟩

end TgSync
